import Mathlib

/-!
Verification of the artifact AI-description pipeline.

Shallow embedding of the streaming description generator:
the Ollama generation client (services.py), the SSE stream aggregator
(views.py, generate_artifact_description_stream.event_stream), the
description state operations (get_artifact_description,
regenerate_artifact_description) and the staleness policy
(models.py, Artifact.needs_ai_description).

The HTTP exchange with the model service is abstracted as an
`UpstreamOutcome`: either one of the three exception classes caught by the
client, or a response with a status code and a list of body lines.  Each
body line is abstracted by what `json.loads` does to it: blank (skipped by
the `line.strip()` guard), malformed (raises `JSONDecodeError`), or a
record with an optional `response` text field and a `done` flag.
Timestamps are modelled as integers counting seconds.
-/

namespace Ongi

/-- Events yielded by `OllamaService.generate_artifact_description`:
the dictionaries `\x7b'chunk': text\x7d`, `\x7b'done': True\x7d` and
`\x7b'error': message\x7d` as a tagged variant. -/
inductive GenEvent where
  | chunk (text : String)
  | done
  | error (message : String)
deriving DecidableEq

/-- One line of the model-service response body, abstracted by its parse
outcome: whitespace-only, a `json.loads` failure, or a parsed record with
an optional `response` field and a `done` flag. -/
inductive RawLine where
  | blank
  | malformed (msg : String)
  | record (response : Option String) (done : Bool)
deriving DecidableEq

/-- Outcome of the single HTTP exchange the client opens: one of the three
exception classes caught in services.py, or a response with a status code
and body lines. -/
inductive UpstreamOutcome where
  | timeoutExc
  | connectExc
  | otherExc (msg : String)
  | response (status : Nat) (lines : List RawLine)
deriving DecidableEq

/-- The read loop of `generate_artifact_description` over the body lines of
a 200 response: blank lines are skipped; a decode failure yields an error
event and continues; a record with a `response` field yields a chunk;
a record with `done` set yields a done event and breaks. -/
def processLines : List RawLine → List GenEvent
  | [] => []
  | RawLine.blank :: rest => processLines rest
  | RawLine.malformed m :: rest =>
      GenEvent.error ("JSON decode error: " ++ m) :: processLines rest
  | RawLine.record r d :: rest =>
      (match r with
        | some s => [GenEvent.chunk s]
        | none => []) ++
      (if d then [GenEvent.done] else processLines rest)

/-- `OllamaService.generate_artifact_description`: the full event sequence
produced by one call, as a function of the upstream outcome.  A non-200
status yields a single error event; each caught exception yields its
single error event; otherwise the body lines are processed in order. -/
def generate_artifact_description : UpstreamOutcome → List GenEvent
  | UpstreamOutcome.timeoutExc => [GenEvent.error "Ollama API timeout"]
  | UpstreamOutcome.connectExc => [GenEvent.error "Cannot connect to Ollama. Is it running?"]
  | UpstreamOutcome.otherExc m => [GenEvent.error ("Unexpected error: " ++ m)]
  | UpstreamOutcome.response status lines =>
      if status ≠ 200 then
        [GenEvent.error ("Ollama API error: " ++ toString status)]
      else processLines lines

/-- The fields of the `Artifact` model read or written by the description
pipeline.  `ai_description_generated_at` is a timestamp in seconds. -/
structure Artifact where
  name : String
  description : Option String
  time_period : Option String
  estimated_year : Option String
  origin_location : Option String
  ai_description : Option String
  ai_description_generated_at : Option Int
deriving DecidableEq

/-- Python truthiness of an optional text field: `None` and the empty
string are falsy.  This is the test `if not self.ai_description`,
`if artifact.ai_description`, `if time_period` etc. in the source. -/
def truthy : Option String → Bool
  | none => false
  | some s => if s = "" then false else true

/-- Thirty days in seconds, the `timedelta(days=30)` staleness bound. -/
def thirtyDays : Int := 30 * 86400

/-- `Artifact.needs_ai_description`: true when `ai_description` is falsy
(null or empty); otherwise, when a generation timestamp exists, true
exactly when the age strictly exceeds thirty days; otherwise false. -/
def needs_ai_description (a : Artifact) (now : Int) : Bool :=
  if truthy a.ai_description = false then true
  else
    match a.ai_description_generated_at with
    | some t => decide (now - t > thirtyDays)
    | none => false

/-- Outbound SSE frames of the streaming view: the JSON payloads
`\x7b'type': 'chunk', 'content': ...\x7d`,
`\x7b'type': 'error', 'message': ...\x7d` and
`\x7b'type': 'complete', 'full_text': ...\x7d` as a tagged variant. -/
inductive Frame where
  | chunk (content : String)
  | error (message : String)
  | complete (full_text : String)
deriving DecidableEq

/-- The loop body of `generate_artifact_description_stream.event_stream`,
with the accumulator `full_description` explicit: a chunk event appends to
the accumulator and emits a chunk frame; an error event emits an error
frame and returns; a done event saves `ai_description` and
`ai_description_generated_at` in one update, emits the complete frame and
breaks; exhaustion of the generator ends the stream with no further
frame. -/
def eventStreamLoop (a : Artifact) (now : Int) :
    List GenEvent → String → List Frame × Artifact
  | [], _ => ([], a)
  | GenEvent.chunk s :: rest, acc =>
      let out := eventStreamLoop a now rest (acc ++ s)
      (Frame.chunk s :: out.1, out.2)
  | GenEvent.error m :: _, _ => ([Frame.error m], a)
  | GenEvent.done :: _, acc =>
      ([Frame.complete acc],
       { a with ai_description := some acc
                ai_description_generated_at := some now })

/-- `event_stream` run over a whole event sequence, starting from the
empty accumulator: returns the outbound frames and the final artifact. -/
def event_stream (events : List GenEvent) (a : Artifact) (now : Int) :
    List Frame × Artifact :=
  eventStreamLoop a now events ""

/-- The streaming view end to end: the client events for the given
upstream outcome, fed to the aggregator. -/
def generate_artifact_description_stream (o : UpstreamOutcome)
    (a : Artifact) (now : Int) : List Frame × Artifact :=
  event_stream (generate_artifact_description o) a now

/-- Response body of `get_artifact_description`. -/
structure DescriptionResponse where
  description : String
  is_ai_generated : Bool
  generated_at : Option Int
  needs_regeneration : Bool
  artifact_name : String
  time_period : Option String
deriving DecidableEq

/-- `get_artifact_description`: the AI description when truthy is served
with `is_ai_generated` true; otherwise the plain description, or the fixed
placeholder when that is falsy too. -/
def get_artifact_description (a : Artifact) (now : Int) : DescriptionResponse :=
  if truthy a.ai_description then
    { description := a.ai_description.getD ""
      is_ai_generated := true
      generated_at := a.ai_description_generated_at
      needs_regeneration := needs_ai_description a now
      artifact_name := a.name
      time_period := a.time_period }
  else
    { description :=
        if truthy a.description then a.description.getD "" else "설명이 없습니다."
      is_ai_generated := false
      generated_at := a.ai_description_generated_at
      needs_regeneration := needs_ai_description a now
      artifact_name := a.name
      time_period := a.time_period }

/-- `regenerate_artifact_description`: clears `ai_description` and
`ai_description_generated_at` in one update. -/
def regenerate_artifact_description (a : Artifact) : Artifact :=
  { a with ai_description := none, ai_description_generated_at := none }

/-- Fixed part of the prompt before the artifact name. -/
def promptHeader : String :=
  "당신은 한국 문화재 전문가입니다. 다음 유물에 대해 자세하고 흥미롭게 설명해주세요.\n\n📌 유물 정보:\n- 유물명: "

/-- Fixed part of the prompt after the optional field lines. -/
def promptFooter : String :=
  "\n\n📝 설명 작성 가이드:\n1. 역사적 배경과 시대적 맥락 (2-3문장)\n2. 유물의 특징과 제작 기법 (2-3문장)\n3. 문화적/예술적 가치와 의의 (1-2문장)\n\n⚠️ 주의사항:\n- 자연스럽고 이해하기 쉬운 한국어로 작성\n- 전문 용어는 쉽게 풀어서 설명\n- 흥미로운 이야기나 에피소드 포함\n- 총 200-300자 내외로 작성\n- 존댓말 사용하지 않고 평서문으로 작성\n\n설명:"

/-- Line prefix for the time-period field. -/
def timePeriodMarker : String := "\n• 시대: "

/-- Line prefix for the estimated-year field. -/
def estimatedYearMarker : String := "\n• 추정 연도: "

/-- Line prefix for the origin-location field. -/
def originLocationMarker : String := "\n• 출토지: "

/-- `OllamaService._create_prompt`: the header with the name, then one
line per truthy optional field in the order time_period, estimated_year,
origin_location, then the fixed guide text. -/
def create_prompt (artifact_name : String)
    (time_period estimated_year origin_location : Option String) : String :=
  let p := promptHeader ++ artifact_name
  let p := if truthy time_period then p ++ timePeriodMarker ++ time_period.getD "" else p
  let p := if truthy estimated_year then p ++ estimatedYearMarker ++ estimated_year.getD "" else p
  let p := if truthy origin_location then p ++ originLocationMarker ++ origin_location.getD "" else p
  p ++ promptFooter

/-- The contribution of one optional field to the prompt: its line when
the field is truthy, nothing otherwise. -/
def optPart (marker : String) (field : Option String) : String :=
  if truthy field then marker ++ field.getD "" else ""

/-- Concatenation of a list of strings in order. -/
def concatAll : List String → String
  | [] => ""
  | s :: rest => s ++ concatAll rest

/-- A generation event that ends the aggregator loop. -/
def isTerminalEvent : GenEvent → Bool
  | GenEvent.done => true
  | GenEvent.error _ => true
  | GenEvent.chunk _ => false

/-- An outbound frame that ends the stream. -/
def isTerminalFrame : Frame → Bool
  | Frame.complete _ => true
  | Frame.error _ => true
  | Frame.chunk _ => false

/-- Checks that every done event in the sequence is its last element. -/
def doneIsLast : List GenEvent → Bool
  | [] => true
  | GenEvent.done :: rest => rest.isEmpty
  | _ :: rest => doneIsLast rest

/-- A concrete artifact used by witnesses and counterexamples. -/
def sampleArtifact : Artifact :=
  { name := "청동거울"
    description := some "기본 설명"
    time_period := some "고려"
    estimated_year := none
    origin_location := some "개성"
    ai_description := none
    ai_description_generated_at := none }

/-- Running the aggregator loop on a block of chunk events followed by a
done event emits the chunk frames in order and then one complete frame
holding the accumulator extended by the concatenated chunk texts, and
persists that same string with the given timestamp. -/
theorem eventStreamLoop_chunks_done (a : Artifact) (now : Int)
    (cs : List String) (rest : List GenEvent) :
    ∀ acc : String,
      eventStreamLoop a now (cs.map GenEvent.chunk ++ GenEvent.done :: rest) acc =
        (cs.map Frame.chunk ++ [Frame.complete (acc ++ concatAll cs)],
         { a with ai_description := some (acc ++ concatAll cs)
                  ai_description_generated_at := some now }) := by
  induction cs with
  | nil =>
      intro acc
      simp [eventStreamLoop, concatAll]
  | cons c cs ih =>
      intro acc
      simp only [List.map_cons, List.cons_append, eventStreamLoop, List.append_eq]
      rw [ih (acc ++ c)]
      simp [concatAll, String.append_assoc]

/-- Claim C1: for every successful stream, namely one whose event sequence
is a block of chunk events followed by a done event (no error before the
done; events after the done are ignored by the break), the outbound frames
are exactly the chunk frames in arrival order followed by one complete
frame, the full_text of that complete frame is the concatenation of the
prior chunk frame contents in arrival order, and the same string is
persisted as the artifact ai_description. -/
theorem c1_complete_full_text (cs : List String) (rest : List GenEvent)
    (a : Artifact) (now : Int) :
    event_stream (cs.map GenEvent.chunk ++ GenEvent.done :: rest) a now =
      (cs.map Frame.chunk ++ [Frame.complete (concatAll cs)],
       { a with ai_description := some (concatAll cs)
                ai_description_generated_at := some now }) := by
  have h := eventStreamLoop_chunks_done a now cs rest ""
  simpa [event_stream] using h

/-- Claim C9: a non-success HTTP status from the model service makes the
client yield exactly one error event and nothing else: no chunk, no done,
no retry. -/
theorem c9_bad_status_single_error (status : Nat) (lines : List RawLine)
    (h : status ≠ 200) :
    generate_artifact_description (UpstreamOutcome.response status lines) =
      [GenEvent.error ("Ollama API error: " ++ toString status)] := by
  simp [generate_artifact_description, h]

/-- Witness for C9 at status 500: the body lines after the status check
are never read. -/
theorem c9_bad_status_single_error_witness :
    generate_artifact_description
        (UpstreamOutcome.response 500 [RawLine.record (some "무시") true]) =
      [GenEvent.error "Ollama API error: 500"] :=
  c9_bad_status_single_error 500 [RawLine.record (some "무시") true] (by decide)

/-- Claim C10: a done event with no prior chunk events (and no prior error,
so done is the first event) persists the empty string as ai_description
together with the current timestamp and emits one complete frame with
empty full_text; a subsequent Get on the resulting artifact reports
is_ai_generated false and serves the fallback description, and
needs_ai_description returns true, both because the empty string is falsy. -/
theorem c10_empty_completion (rest : List GenEvent) (a : Artifact)
    (now later : Int) :
    (event_stream (GenEvent.done :: rest) a now).1 = [Frame.complete ""] ∧
    (event_stream (GenEvent.done :: rest) a now).2.ai_description = some "" ∧
    (event_stream (GenEvent.done :: rest) a now).2.ai_description_generated_at
      = some now ∧
    (get_artifact_description ((event_stream (GenEvent.done :: rest) a now).2)
        later).is_ai_generated = false ∧
    (get_artifact_description ((event_stream (GenEvent.done :: rest) a now).2)
        later).description =
      (if truthy a.description then a.description.getD "" else "설명이 없습니다.") ∧
    needs_ai_description ((event_stream (GenEvent.done :: rest) a now).2) later
      = true := by
  refine ⟨rfl, rfl, rfl, ?_, ?_, ?_⟩ <;>
    simp [event_stream, eventStreamLoop, get_artifact_description,
      needs_ai_description, truthy]

/-- Claim C3 as amended: the client-side read loop does recover locally
from a malformed line, yielding an error event for it and continuing with
the subsequent lines; but the aggregator surfaces an error frame and
terminates the outbound stream at the first error event, leaving the
artifact untouched, even when well-formed lines follow. -/
theorem c3_amended_malformed_line (m : String) (lines : List RawLine)
    (a : Artifact) (now : Int) :
    processLines (RawLine.malformed m :: lines) =
      GenEvent.error ("JSON decode error: " ++ m) :: processLines lines ∧
    event_stream (processLines (RawLine.malformed m :: lines)) a now =
      ([Frame.error ("JSON decode error: " ++ m)], a) :=
  ⟨rfl, rfl⟩

/-- Counterexample to C3 as stated: the malformed line is not the only
content received (a well-formed chunk-and-done record follows), yet an
error frame is surfaced to the client, the stream terminates, and neither
the following chunk nor any complete frame reaches the client. -/
theorem c3_counterexample :
    generate_artifact_description (UpstreamOutcome.response 200
        [RawLine.malformed "Expecting value", RawLine.record (some "고려") true]) =
      [GenEvent.error "JSON decode error: Expecting value",
       GenEvent.chunk "고려", GenEvent.done] ∧
    (generate_artifact_description_stream (UpstreamOutcome.response 200
        [RawLine.malformed "Expecting value", RawLine.record (some "고려") true])
        sampleArtifact 0).1 =
      [Frame.error "JSON decode error: Expecting value"] ∧
    (generate_artifact_description_stream (UpstreamOutcome.response 200
        [RawLine.malformed "Expecting value", RawLine.record (some "고려") true])
        sampleArtifact 0).2 = sampleArtifact :=
  ⟨rfl, rfl, rfl⟩

/-- In the read loop, every done event is the last event produced: the
loop breaks immediately after yielding it. -/
theorem doneIsLast_processLines (lines : List RawLine) :
    doneIsLast (processLines lines) = true := by
  induction lines with
  | nil => rfl
  | cons l rest ih =>
      cases l with
      | blank => simpa [processLines] using ih
      | malformed m => simpa [processLines, doneIsLast] using ih
      | record r d =>
          cases r with
          | none =>
              cases d with
              | true => rfl
              | false => simpa [processLines] using ih
          | some s =>
              cases d with
              | true => rfl
              | false => simpa [processLines, doneIsLast] using ih

/-- Claim C4 as amended: in every event sequence produced by one call of
the client, at most one done event occurs and no event of any kind follows
a done event; an error event, by contrast, is not necessarily terminal
(a per-line decode failure yields an error event that later chunk, error
or done events may follow). -/
theorem c4_amended_done_is_last (o : UpstreamOutcome) :
    doneIsLast (generate_artifact_description o) = true := by
  cases o with
  | timeoutExc => rfl
  | connectExc => rfl
  | otherExc m => rfl
  | response status lines =>
      by_cases h : status = 200
      · subst h
        simpa [generate_artifact_description] using doneIsLast_processLines lines
      · simp [generate_artifact_description, h, doneIsLast]

/-- Counterexample to C4 as stated: a malformed first line followed by a
done record makes the client yield an error event and then a done event,
so two terminal events occur in one sequence and an event follows a
terminal event. -/
theorem c4_counterexample :
    generate_artifact_description (UpstreamOutcome.response 200
        [RawLine.malformed "bad line", RawLine.record none true]) =
      [GenEvent.error "JSON decode error: bad line", GenEvent.done] ∧
    ((generate_artifact_description (UpstreamOutcome.response 200
        [RawLine.malformed "bad line", RawLine.record none true])).filter
        isTerminalEvent).length = 2 := by
  exact ⟨rfl, rfl⟩

/-- If some terminal event occurs in the event sequence, the aggregator
loop emits a non-empty frame sequence ending in a terminal frame,
whatever the accumulator. -/
theorem eventStreamLoop_terminal (a : Artifact) (now : Int) :
    ∀ (events : List GenEvent) (acc : String),
      (∃ e ∈ events, isTerminalEvent e = true) →
      ∃ pre f, (eventStreamLoop a now events acc).1 = pre ++ [f] ∧
        isTerminalFrame f = true := by
  intro events
  induction events with
  | nil =>
      intro acc h
      rcases h with ⟨e, he, _⟩
      exact absurd he (List.not_mem_nil e)
  | cons e rest ih =>
      intro acc h
      cases e with
      | chunk s =>
          have hrest : ∃ e ∈ rest, isTerminalEvent e = true := by
            rcases h with ⟨e, he, ht⟩
            rcases List.mem_cons.mp he with h1 | h2
            · subst h1; simp [isTerminalEvent] at ht
            · exact ⟨e, h2, ht⟩
          rcases ih (acc ++ s) hrest with ⟨pre, f, hf, hterm⟩
          refine ⟨Frame.chunk s :: pre, f, ?_, hterm⟩
          simp [eventStreamLoop, hf]
      | error m =>
          exact ⟨[], Frame.error m, rfl, rfl⟩
      | done =>
          exact ⟨[], Frame.complete acc, rfl, rfl⟩

/-- Claim C2 as amended: whenever the client event sequence contains a
terminal event (done or error), the outbound frame sequence is non-empty
and its last frame is a complete or error frame.  When the upstream body
is exhausted with no done record and no error (so the event sequence has
no terminal event), the stream ends silently after the chunk frames, with
no terminal frame. -/
theorem c2_amended_terminal_frame (o : UpstreamOutcome) (a : Artifact)
    (now : Int)
    (h : ∃ e ∈ generate_artifact_description o, isTerminalEvent e = true) :
    (generate_artifact_description_stream o a now).1 ≠ [] ∧
    ∃ pre f, (generate_artifact_description_stream o a now).1 = pre ++ [f] ∧
      isTerminalFrame f = true := by
  rcases eventStreamLoop_terminal a now (generate_artifact_description o) "" h
    with ⟨pre, f, hf, hterm⟩
  refine ⟨?_, pre, f, hf, hterm⟩
  intro hnil
  rw [generate_artifact_description_stream, event_stream] at hnil
  rw [hnil] at hf
  exact absurd hf.symm (List.append_ne_nil_of_right_ne_nil pre (by simp))

/-- Witness for the amended C2: a timeout outcome produces the single
error event, and the stream ends with that error frame. -/
theorem c2_amended_terminal_frame_witness :
    (∃ e ∈ generate_artifact_description UpstreamOutcome.timeoutExc,
      isTerminalEvent e = true) ∧
    ((generate_artifact_description_stream UpstreamOutcome.timeoutExc
        sampleArtifact 0).1 ≠ [] ∧
     ∃ pre f, (generate_artifact_description_stream UpstreamOutcome.timeoutExc
        sampleArtifact 0).1 = pre ++ [f] ∧ isTerminalFrame f = true) :=
  ⟨⟨GenEvent.error "Ollama API timeout", by decide, rfl⟩,
   c2_amended_terminal_frame UpstreamOutcome.timeoutExc sampleArtifact 0
     ⟨GenEvent.error "Ollama API timeout", by decide, rfl⟩⟩

/-- Counterexample to C2 as stated: a 200 response with an empty body is
a possible run of the client; it produces the empty event sequence and the
aggregator then emits no frame at all, so the outbound stream closes
without a terminal frame. -/
theorem c2_counterexample :
    generate_artifact_description (UpstreamOutcome.response 200 []) = [] ∧
    (generate_artifact_description_stream (UpstreamOutcome.response 200 [])
        sampleArtifact 0).1 = [] :=
  ⟨rfl, rfl⟩

/-- If the aggregator loop ends with an error frame, the artifact it
returns is exactly the artifact it started from. -/
theorem eventStreamLoop_error_last_unchanged (a : Artifact) (now : Int) :
    ∀ (events : List GenEvent) (acc m : String),
      ((eventStreamLoop a now events acc).1).getLast? = some (Frame.error m) →
      (eventStreamLoop a now events acc).2 = a := by
  intro events
  induction events with
  | nil => intro acc m h; cases h
  | cons e rest ih =>
      intro acc m h
      cases e with
      | chunk s =>
          rcases hout : (eventStreamLoop a now rest (acc ++ s)).1 with _ | ⟨f, fs⟩
          · rw [eventStreamLoop] at h
            simp only [hout] at h
            cases h
          · have h2 : ((eventStreamLoop a now rest (acc ++ s)).1).getLast? =
                some (Frame.error m) := by
              rw [eventStreamLoop] at h
              simp only at h
              rw [hout] at h ⊢
              simpa [List.getLast?_cons_cons] using h
            have := ih (acc ++ s) m h2
            simpa [eventStreamLoop] using this
      | error m2 => rfl
      | done =>
          rw [eventStreamLoop] at h
          simp only [List.getLast?_singleton, Option.some.injEq] at h
          cases h

/-- Claim C5: a run of the aggregator that terminates by emitting an error
frame (never reaching done) leaves ai_description and
ai_description_generated_at unchanged from their pre-call values: no
persistence write occurs and the accumulated partial text is discarded. -/
theorem c5_error_run_unchanged (events : List GenEvent) (a : Artifact)
    (now : Int) (m : String)
    (h : ((event_stream events a now).1).getLast? = some (Frame.error m)) :
    (event_stream events a now).2.ai_description = a.ai_description ∧
    (event_stream events a now).2.ai_description_generated_at =
      a.ai_description_generated_at := by
  have hu : (event_stream events a now).2 = a :=
    eventStreamLoop_error_last_unchanged a now events "" m h
  rw [hu]
  exact ⟨rfl, rfl⟩

/-- Witness for C5: an upstream timeout run ends with an error frame and
leaves the sample artifact description fields exactly as they were. -/
theorem c5_error_run_unchanged_witness :
    ((event_stream [GenEvent.error "Ollama API timeout"] sampleArtifact 7).1).getLast?
      = some (Frame.error "Ollama API timeout") ∧
    (event_stream [GenEvent.error "Ollama API timeout"] sampleArtifact 7).2.ai_description
      = sampleArtifact.ai_description ∧
    (event_stream [GenEvent.error "Ollama API timeout"] sampleArtifact 7).2.ai_description_generated_at
      = sampleArtifact.ai_description_generated_at :=
  ⟨rfl, c5_error_run_unchanged [GenEvent.error "Ollama API timeout"]
    sampleArtifact 7 "Ollama API timeout" rfl⟩

/-- The aggregator either leaves the artifact untouched or persists a text
with the run timestamp, setting both description fields in one update. -/
theorem eventStreamLoop_artifact_cases (a : Artifact) (now : Int) :
    ∀ (events : List GenEvent) (acc : String),
      (eventStreamLoop a now events acc).2 = a ∨
      ∃ s, (eventStreamLoop a now events acc).2 =
        { a with ai_description := some s
                 ai_description_generated_at := some now } := by
  intro events
  induction events with
  | nil => intro acc; exact Or.inl rfl
  | cons e rest ih =>
      intro acc
      cases e with
      | chunk s =>
          rcases ih (acc ++ s) with h | ⟨t, h⟩
          · exact Or.inl (by simpa [eventStreamLoop] using h)
          · exact Or.inr ⟨t, by simpa [eventStreamLoop] using h⟩
      | error m => exact Or.inl rfl
      | done => exact Or.inr ⟨acc, rfl⟩

/-- Claim C6: the two description fields stay in lockstep.  If
ai_description_generated_at is non-null exactly when ai_description is
non-null before an operation, the same holds after a full aggregator run
(the done branch sets both fields in one update) and after a reset (which
clears both fields in one update); the Get operation reads the artifact
and does not modify it. -/
theorem c6_invariant_preserved (events : List GenEvent) (a : Artifact)
    (now : Int)
    (h : a.ai_description_generated_at.isSome = a.ai_description.isSome) :
    ((event_stream events a now).2.ai_description_generated_at.isSome =
      (event_stream events a now).2.ai_description.isSome) ∧
    ((regenerate_artifact_description a).ai_description_generated_at.isSome =
      (regenerate_artifact_description a).ai_description.isSome) := by
  constructor
  · rcases eventStreamLoop_artifact_cases a now events "" with hc | ⟨s, hc⟩
    · rw [event_stream, hc]; exact h
    · rw [event_stream, hc]; rfl
  · rfl

/-- Witness for C6: the sample artifact satisfies the invariant (both
fields null), and it still holds after a successful run and a reset. -/
theorem c6_invariant_preserved_witness :
    sampleArtifact.ai_description_generated_at.isSome =
      sampleArtifact.ai_description.isSome ∧
    ((event_stream [GenEvent.chunk "고려", GenEvent.done] sampleArtifact 3).2.ai_description_generated_at.isSome =
      (event_stream [GenEvent.chunk "고려", GenEvent.done] sampleArtifact 3).2.ai_description.isSome) ∧
    ((regenerate_artifact_description sampleArtifact).ai_description_generated_at.isSome =
      (regenerate_artifact_description sampleArtifact).ai_description.isSome) :=
  ⟨rfl, c6_invariant_preserved [GenEvent.chunk "고려", GenEvent.done]
    sampleArtifact 3 rfl⟩

/-- Claim C7: needs_ai_description returns true whenever the description
is absent (null or empty, the falsy test of the source); otherwise, with
the generation timestamp present, it returns true exactly when the time
elapsed since that timestamp strictly exceeds thirty days, and false
otherwise. -/
theorem c7_needs_regeneration (a : Artifact) (now t : Int) :
    (truthy a.ai_description = false → needs_ai_description a now = true) ∧
    (truthy a.ai_description = true → a.ai_description_generated_at = some t →
      (needs_ai_description a now = true ↔ now - t > thirtyDays)) := by
  constructor
  · intro h
    simp [needs_ai_description, h]
  · intro h ht
    simp [needs_ai_description, h, ht]

/-- Witness for C7: an artifact whose description was generated at time 0
needs regeneration at thirty days plus one second, and an artifact with no
description needs generation. -/
theorem c7_needs_regeneration_witness :
    needs_ai_description
      { sampleArtifact with ai_description := some "옛 설명"
                            ai_description_generated_at := some 0 }
      (thirtyDays + 1) = true ∧
    needs_ai_description sampleArtifact 0 = true :=
  ⟨((c7_needs_regeneration
      { sampleArtifact with ai_description := some "옛 설명"
                            ai_description_generated_at := some 0 }
      (thirtyDays + 1) 0).2 (by decide) rfl).mpr (by decide),
   (c7_needs_regeneration sampleArtifact 0 0).1 rfl⟩

/-- The prompt decomposes as the fixed header, the name, the three
optional-field parts in their fixed order, and the fixed footer. -/
theorem create_prompt_decompose (n : String)
    (tp yr loc : Option String) :
    create_prompt n tp yr loc =
      promptHeader ++ n ++ optPart timePeriodMarker tp ++
        optPart estimatedYearMarker yr ++ optPart originLocationMarker loc ++
        promptFooter := by
  by_cases h1 : truthy tp <;> by_cases h2 : truthy yr <;>
    by_cases h3 : truthy loc <;>
    simp [create_prompt, optPart, h1, h2, h3, String.append_assoc,
      String.append_empty]

/-- A string starting with a marker is never empty. -/
theorem marker_append_ne_empty (marker s : String) (h : marker.length ≠ 0) :
    marker ++ s ≠ "" := by
  intro he
  have hl := congrArg String.length he
  rw [String.length_append] at hl
  exact h (Nat.eq_zero_of_add_eq_zero_right hl)

/-- Claim C8: the prompt builder returns a single string that decomposes
as header, name, optional parts in the fixed order time_period then
estimated_year then origin_location, and footer; the name always occurs
in the result; and, for fields that are not the degenerate present-but-
empty string, each optional part is that field's line exactly when the
field is present and is empty exactly when it is absent. -/
theorem c8_prompt_builder (n : String) (tp yr loc : Option String)
    (htp : tp ≠ some "") (hyr : yr ≠ some "") (hloc : loc ≠ some "") :
    create_prompt n tp yr loc =
      promptHeader ++ n ++ optPart timePeriodMarker tp ++
        optPart estimatedYearMarker yr ++ optPart originLocationMarker loc ++
        promptFooter ∧
    n.data <:+: (create_prompt n tp yr loc).data ∧
    (optPart timePeriodMarker tp = "" ↔ tp = none) ∧
    (∀ s, tp = some s → optPart timePeriodMarker tp = timePeriodMarker ++ s) ∧
    (optPart estimatedYearMarker yr = "" ↔ yr = none) ∧
    (∀ s, yr = some s → optPart estimatedYearMarker yr = estimatedYearMarker ++ s) ∧
    (optPart originLocationMarker loc = "" ↔ loc = none) ∧
    (∀ s, loc = some s →
      optPart originLocationMarker loc = originLocationMarker ++ s) := by
  have hdec := create_prompt_decompose n tp yr loc
  have hpart : ∀ (marker : String) (f : Option String), marker.length ≠ 0 →
      f ≠ some "" →
      ((optPart marker f = "" ↔ f = none) ∧
       ∀ s, f = some s → optPart marker f = marker ++ s) := by
    intro marker f hm hf
    cases f with
    | none => exact ⟨by simp [optPart, truthy], by intro s hs; cases hs⟩
    | some s =>
        have hs : s ≠ "" := by intro he; exact hf (by rw [he])
        constructor
        · constructor
          · intro he
            rw [optPart, truthy] at he
            simp [hs] at he
            exact absurd he (marker_append_ne_empty marker s hm)
          · intro he; cases he
        · intro t ht
          rw [Option.some.injEq] at ht
          subst ht
          simp [optPart, truthy, hs]
  refine ⟨hdec, ?_, ?_, ?_, ?_, ?_, ?_, ?_⟩
  · refine ⟨promptHeader.data,
      (optPart timePeriodMarker tp ++ optPart estimatedYearMarker yr ++
        optPart originLocationMarker loc ++ promptFooter).data, ?_⟩
    rw [hdec]
    simp [String.data_append, List.append_assoc]
  · exact (hpart timePeriodMarker tp (by decide) htp).1
  · exact (hpart timePeriodMarker tp (by decide) htp).2
  · exact (hpart estimatedYearMarker yr (by decide) hyr).1
  · exact (hpart estimatedYearMarker yr (by decide) hyr).2
  · exact (hpart originLocationMarker loc (by decide) hloc).1
  · exact (hpart originLocationMarker loc (by decide) hloc).2

/-- Witness for C8, the scenario of the spec: name 청동거울, time period
고려, no estimated year, origin 개성.  The prompt contains the name, the
time-period and origin lines in order, and no estimated-year part. -/
theorem c8_prompt_builder_witness :
    create_prompt "청동거울" (some "고려") none (some "개성") =
      promptHeader ++ "청동거울" ++ optPart timePeriodMarker (some "고려") ++
        optPart estimatedYearMarker none ++
        optPart originLocationMarker (some "개성") ++ promptFooter ∧
    ("청동거울" : String).data <:+:
      (create_prompt "청동거울" (some "고려") none (some "개성")).data ∧
    optPart estimatedYearMarker none = "" ∧
    optPart timePeriodMarker (some "고려") = timePeriodMarker ++ "고려" ∧
    optPart originLocationMarker (some "개성") = originLocationMarker ++ "개성" :=
  have h := c8_prompt_builder "청동거울" (some "고려") none (some "개성")
    (by decide) (by decide) (by decide)
  ⟨h.1, h.2.1, h.2.2.2.2.1.mpr rfl, h.2.2.2.1 "고려" rfl,
    h.2.2.2.2.2.2.2 "개성" rfl⟩

example : generate_artifact_description (UpstreamOutcome.response 200
    [RawLine.record (some "고려") false, RawLine.record (some "시대의") false,
     RawLine.record none true]) =
    [GenEvent.chunk "고려", GenEvent.chunk "시대의", GenEvent.done] := rfl

example : (generate_artifact_description_stream (UpstreamOutcome.response 200
    [RawLine.record (some "고려") false, RawLine.record (some "시대의") false,
     RawLine.record none true]) sampleArtifact 5).1 =
    [Frame.chunk "고려", Frame.chunk "시대의", Frame.complete "고려시대의"] := rfl

end Ongi
